import Mathlib

/-!
Verification of the media-scripts repository: a shallow embedding of the
parts of `tvlib.py` and `full_import.py` that the checked properties are
about, followed by theorems settling each property.
-/

namespace MediaScripts

/-- Embedding of `tvlib.EpInfo` (a namedtuple with fields
`show, season, episode, title, filepath, filename, ext`).  The Python field
`show` is spelled `showName` because `show` is a Lean keyword. -/
structure EpInfo where
  showName : String
  season : Int
  episode : Int
  title : String
  filepath : String
  filename : String
  ext : String
deriving DecidableEq, Repr

/-- Python `str.split(sep)` for a one-character separator, on the character
list: every occurrence of the separator starts a new (possibly empty) group,
and the empty input yields one empty group, matching Python where
`""\x2esplit(",") == [""]`. -/
def splitChars (sep : Char) : List Char → List (List Char)
  | [] => [[]]
  | c :: cs =>
    match splitChars sep cs with
    | [] => [[]]
    | grp :: rest => if c == sep then [] :: grp :: rest else (c :: grp) :: rest

/-- Python `s.split(sep)` for a one-character separator. -/
def pySplit (s : String) (sep : Char) : List String :=
  (splitChars sep s.data).map String.mk

/-- Python `s.strip()`: drop whitespace from both ends. -/
def pyStrip (s : String) : String :=
  String.mk (((s.data.dropWhile Char.isWhitespace).reverse.dropWhile
    Char.isWhitespace).reverse)

/-- Python `s.lower()` (on the ASCII range relevant here). -/
def pyLower (s : String) : String :=
  String.mk (s.data.map Char.toLower)

/-- `os.path.join` for two relative/absolute POSIX components, as used by
`tvlib`: the right component replaces everything when absolute; otherwise a
single separator is inserted unless the left part is empty or already ends
with one. -/
def pathJoin (a b : String) : String :=
  if b.data.head? == some '/' then b
  else if a == "" || a.data.getLast? == some '/' then a ++ b
  else a ++ "/" ++ b

/-- Embedding of `tvlib.canonical_filename`:
`'{} - S{}E{} - {}.{}'.format(show, season, episode, title, ext)`. -/
def canonical_filename (e : EpInfo) : String :=
  e.showName ++ " - S" ++ toString e.season ++ "E" ++ toString e.episode
    ++ " - " ++ e.title ++ "." ++ e.ext

/-- Embedding of `tvlib.canonical_filepath`:
`os.path.join(show, 'Season {season}', canonical_filename(epinfo))`. -/
def canonical_filepath (e : EpInfo) : String :=
  pathJoin (pathJoin e.showName ("Season " ++ toString e.season)) (canonical_filename e)

/-- Embedding of `tvlib.update_epinfo` restricted to the two fields
`canonicalize` updates. -/
def update_epinfo (e : EpInfo) (filepath filename : String) : EpInfo :=
  { e with filepath := filepath, filename := filename }

/-- Embedding of `tvlib.canonicalize`.  The function first derives the
updated `EpInfo`; when its `move` flag is set it then evaluates
`shutil.move(...)`, but the module only does `from shutil import move`, so
the bare name `shutil` is unbound and Python raises `NameError` (the
`os.makedirs` call before it is modelled as succeeding).  With `move`
unset it returns the updated record without touching the filesystem. -/
def canonicalize (epinfo : EpInfo) (dest : String) (move : Bool) : Except String EpInfo :=
  let new := update_epinfo epinfo (pathJoin dest (canonical_filepath epinfo))
    (canonical_filename epinfo)
  if move then .error "NameError: name shutil is not defined"
  else .ok new

/-- A nonempty all-digit string (the `\d+` token of
`eplist_selector_pattern`). -/
def isDigits (s : String) : Bool :=
  s.data ≠ [] && s.data.all Char.isDigit

/-- The `\d+|\*` token of `eplist_selector_pattern`. -/
def isEpTok (s : String) : Bool :=
  isDigits s || s == "*"

/-- Embedding of the whole-string match against
`eplist_selector_pattern = ^(\d+):(\d+|\*)(,((\d+):)?(\d+|\*))*$`:
after splitting on commas (no token may contain one), the first item must
be `digits:eptok` and every later item `digits:eptok` or a bare `eptok`. -/
def selectorMatch (s : String) : Bool :=
  match pySplit s ',' with
  | [] => false
  | first :: rest =>
    (match pySplit first ':' with
     | [a, b] => isDigits a && isEpTok b
     | _ => false)
    && rest.all (fun item =>
        match pySplit item ':' with
        | [b] => isEpTok b
        | [a, b] => isDigits a && isEpTok b
        | _ => false)

/-- Python `int(s)` restricted to decimal-digit strings (the only shapes
this program feeds it); any other input raises `ValueError`. -/
def pyInt (s : String) : Except String Int :=
  if isDigits s then
    .ok (Int.ofNat (s.data.foldl (fun acc c => acc * 10 + (c.toNat - 48)) 0))
  else .error "ValueError: invalid literal for int"

/-- The `for episode in selector.split(',')` loop of `EPList.__init__`,
threading the `last_season` variable.  An item containing `:` is unpacked
into `last_season, ep = episode.split(':')` (raising on a different arity);
otherwise the previous season is reused, raising
`No season defined on selector` when there is none.  `ep` becomes `None`
(here `none`) for the wildcard `*`, else `int(ep)`. -/
def eplistLoop : List String → Option Int → Except String (List (Int × Option Int))
  | [], _ => .ok []
  | item :: rest, lastSeason =>
    if item.data.contains ':' then
      match pySplit item ':' with
      | [a, b] => do
        let s ← pyInt a
        let ep ← if b == "*" then pure none else do pure (some (← pyInt b))
        let tail ← eplistLoop rest (some s)
        pure ((s, ep) :: tail)
      | _ => .error "ValueError: unpacking episode.split failed"
    else
      match lastSeason with
      | none => .error "No season defined on selector"
      | some s => do
        let ep ← if item == "*" then pure none else do pure (some (← pyInt item))
        let tail ← eplistLoop rest (some s)
        pure ((s, ep) :: tail)

/-- Embedding of `tvlib.EPList.__init__`: a `None` selector is replaced by
the empty string; a nonempty selector must match the selector pattern; the
episode list is then built by `eplistLoop` over the comma-split items.
Note `""\x2esplit(",") == [""]`, so the empty selector still runs one loop
iteration. -/
def EPList.init (selector : Option String) : Except String (List (Int × Option Int)) :=
  let sel := selector.getD ""
  if sel.data ≠ [] && !selectorMatch sel then
    .error "Selector not in valid format"
  else
    eplistLoop (pySplit sel ',') none

/-- Embedding of `EPList.wildcard_seasons`: the seasons whose entry carries
a wildcard episode (Python returns a set; we return the deduplicated list,
which has the same membership). -/
def wildcard_seasons (episodes : List (Int × Option Int)) : List Int :=
  ((episodes.filter (fun p => p.2 == none)).map Prod.fst).dedup

/-- Embedding of `EPList.__contains__` on an `EpInfo` argument:
`(e.season, e.episode) in self.episodes or e.season in self.wildcard_seasons`. -/
def EPList.containsEp (episodes : List (Int × Option Int)) (e : EpInfo) : Bool :=
  episodes.contains (e.season, some e.episode)
    || (wildcard_seasons episodes).contains e.season

/-- Embedding of `EPList.__and__`: the code first evaluates `EPList("")`
(which participates in `new = EPList("")`) and only then would fill
`new.episodes` with the pairs of `self.episodes` also present in
`other.episodes`. -/
def EPList.and (a b : List (Int × Option Int)) :
    Except String (List (Int × Option Int)) := do
  let _ ← EPList.init (some "")
  pure (a.filter (fun ep => b.contains ep))

/-- The title normalisation used by `full_import.select_episode`:
`t.lower().strip()`. -/
def normTitle (t : String) : String :=
  pyStrip (pyLower t)

/-- The set intersection built by `select_episode`:
`{t.lower().strip() for s,e,t in allowed_episodes} & {t.lower().strip() for t in detected_text}`,
as a deduplicated list (same membership and cardinality as the Python set). -/
def common_titles (allowed : List (Int × Int × String)) (detected : List String) :
    List String :=
  ((allowed.map (fun p => normTitle p.2.2)).filter
    (fun t => decide (t ∈ detected.map normTitle))).dedup

/-- Embedding of `full_import.select_episode`.  When the intersection has
exactly one element the code pops it and looks it up in
`ep_dict = {t.lower().strip(): (s,e,t) for s,e,t in allowed_episodes}`; a
dict comprehension keeps the last entry per key, hence `getLast?` on the
episodes carrying that normalised title.  Otherwise `(None, None, None)` is
returned, modelled as `none`. -/
def select_episode (allowed : List (Int × Int × String)) (detected : List String) :
    Option (Int × Int × String) :=
  match common_titles allowed detected with
  | [t] => (allowed.filter (fun p => decide (normTitle p.2.2 = t))).getLast?
  | _ => none

/-- `numpy.median` of a list of (exact) confidence scores: sort, take the
middle element for odd length and the mean of the two middle elements for
even length.  Only applied to nonempty segment lists by the program. -/
def npMedian (l : List ℚ) : ℚ :=
  let s := List.insertionSort (fun a b => a ≤ b) l
  let n := s.length
  if n % 2 = 1 then s.getD (n / 2) 0
  else (s.getD (n / 2 - 1) 0 + s.getD (n / 2) 0) / 2

/-- The list comprehension of `full_import.gcloud_annotate`: keep
`annotation.text` for every annotation whose median per-segment confidence
is `>=` the threshold, in order.  An annotation is modelled as the pair of
its text and its per-segment confidence scores. -/
def confFilter (anns : List (String × List ℚ)) (t : ℚ) : List String :=
  (anns.filter (fun a => decide (t ≤ npMedian a.2))).map Prod.fst

/-- One iteration of the polling loop of `gcloud_annotate`, as observed at
its two interaction points (`operation.done()` and
`operation.result(timeout=...)`). -/
inductive LoopEvent where
  /-- `operation.done()` returned `True`: the `while` guard fails and the
  function falls off its end, returning `None`. -/
  | exitDone
  /-- `operation.done()` returned `False` and `operation.result` raised
  (timeout or transient error): the bare `except` continues the loop. -/
  | pollTimeout
  /-- `operation.done()` returned `False` and `operation.result` returned
  the completed result: the filtered text list is returned. -/
  | pollSuccess
deriving DecidableEq, Repr

/-- Embedding of the polling loop of `full_import.gcloud_annotate` over a
trace of loop iterations.  A real execution always ends in `exitDone` or
`pollSuccess`; a trace exhausted without either corresponds to no exit and
is conservatively mapped to `none`. -/
def gcloud_annotate (t : ℚ) (anns : List (String × List ℚ)) :
    List LoopEvent → Option (List String)
  | [] => none
  | .exitDone :: _ => none
  | .pollSuccess :: _ => some (confFilter anns t)
  | .pollTimeout :: rest => gcloud_annotate t anns rest

/-- The fixed offset order (in minutes) tried by
`full_import.detect_title`. -/
def detect_offsets : List Nat := [4, 2, 6, 0, 8]

/-- The `for offset in [4, 2, 6, 0, 8]` loop of `detect_title`: each
attempt calls `_detect_title` (abstracted as `oracle start duration`, here
with `start_offset=60*offset` and `encode_duration=120`) and the loop
returns at the first attempt whose episode is not `None`.  Also returns the
list of `(start_offset, encode_duration)` pairs attempted, in order. -/
def detect_title_go (oracle : Nat → Nat → Option (Int × Int × String)) :
    List Nat → Option (Int × Int × String) × List (Nat × Nat)
  | [] => (none, [])
  | o :: rest =>
    match oracle (60 * o) 120 with
    | some r => (some r, [(60 * o, 120)])
    | none =>
      let tail := detect_title_go oracle rest
      (tail.1, (60 * o, 120) :: tail.2)

/-- Embedding of `full_import.detect_title`: run the offset loop; if no
offset produced an episode, fall back to
`taskmaster.prompt(taskid, 'SEASON', 'EPISODE', 'TITLE', ...)`, whose
user-supplied answer is the parameter `promptResult`.  The third component
records the argument list passed to `prompt`, or `none` when no prompt
happened. -/
def detect_title (oracle : Nat → Nat → Option (Int × Int × String))
    (promptResult : Int × Int × String) :
    (Int × Int × String) × List (Nat × Nat) × Option (List String) :=
  match detect_title_go oracle detect_offsets with
  | (some r, tr) => (r, tr, none)
  | (none, tr) => (promptResult, tr, some ["SEASON", "EPISODE", "TITLE"])

/-- The value stored for a resource class in `Taskmaster.throttles`: the
configured integer limit, lazily replaced by a bounded semaphore of that
capacity on first use. -/
inductive ThrottleEntry where
  | limit (n : Nat)
  | sem (capacity : Nat)
deriving DecidableEq, Repr

namespace Taskmaster

/-- Embedding of `Taskmaster.throttle`'s entry logic (the dict
`self.throttles` as a map from class names).  Returns the updated map and
whether the body runs gated by a semaphore: a missing class yields the
untouched map ungated; an integer entry is replaced by
`asyncio.BoundedSemaphore(n)` and acquired; a semaphore entry is acquired
as is. -/
def throttle (throttles : String → Option ThrottleEntry) (cls : String) :
    (String → Option ThrottleEntry) × Bool :=
  match throttles cls with
  | none => (throttles, false)
  | some (.limit n) => ((fun k => if k = cls then some (.sem n) else throttles k), true)
  | some (.sem _) => (throttles, true)

end Taskmaster

/-- The externally visible calls made by `_detect_title`, in order. -/
inductive CallAction where
  | ffmpegCopy
  | gsUpload
  | annotateCall
  | gsRm
deriving DecidableEq, Repr

/-- A computation observed as the list of calls it made plus its outcome. -/
abbrev Traced (α : Type) := List CallAction × Except String α

/-- Sequencing of traced computations with exception propagation: on error
the continuation never runs and contributes no calls. -/
def tracedBind {α β : Type} (x : Traced α) (f : α → Traced β) : Traced β :=
  match x.2 with
  | .error e => (x.1, .error e)
  | .ok a => (x.1 ++ (f a).1, (f a).2)

/-- A single external call with a given outcome. -/
def tracedStep {α : Type} (a : CallAction) (r : Except String α) : Traced α :=
  ([a], r)

/-- `try ... finally ...` for a traced body: the cleanup calls run whether
the body succeeded or raised, and the body's outcome is preserved
(`gsutil_rm` itself is modelled as succeeding). -/
def tracedFinally {α : Type} (body : Traced α) (cleanup : List CallAction) : Traced α :=
  (body.1 ++ cleanup, body.2)

/-- Embedding of `full_import._detect_title` at the granularity of its
external calls: ffmpeg copy, `gsutil mv` upload, then
`try: gcloud_annotate ... finally: gsutil_rm`, and finally
`select_episode` on the detected text.  The outcomes of the three fallible
external calls are parameters. -/
def _detect_title (ffmpegRes gsMvRes : Except String Unit)
    (annRes : Except String (List String))
    (episodes : List (Int × Int × String)) : Traced (Option (Int × Int × String)) :=
  tracedBind (tracedStep .ffmpegCopy ffmpegRes) (fun _ =>
    tracedBind (tracedStep .gsUpload gsMvRes) (fun _ =>
      tracedBind (tracedFinally (tracedStep .annotateCall annRes) [.gsRm])
        (fun text => ([], .ok (select_episode episodes text)))))

/-- The stages of `import_file` (after the staging rename succeeded) at
which an exception can be injected. -/
inductive FailPoint where
  /-- during the rest of the staging stage (e.g. creating the temporary
  directory) -/
  | staging
  /-- inside `detect_title` / the title-detection stage -/
  | titleDetection
  /-- inside `xcode.handbrake_args` encode-argument construction -/
  | encodeArgs
  /-- inside the `handbrake` transcoding stage -/
  | transcoding
deriving DecidableEq, Repr

/-- The observable per-file state of `import_file`: whether the original
input path exists, whether the staging path exists, and the task status
last set through `Taskmaster.update_status`. -/
structure ImportState where
  origExists : Bool
  stagingExists : Bool
  status : Option String
deriving DecidableEq, Repr

/-- The `except` block of `import_file`: set status `Failed`, print the
traceback, rename the staging path back onto the original input path
(atomic: afterwards the original exists and the staging path does not,
they being distinct since the staging name adds the
`import_inprogress.<timestamp>.` markers), and re-raise — the second
component records that the exception propagates. -/
def import_fail (s : ImportState) : ImportState × Bool :=
  ({ s with status := some "Failed", origExists := true, stagingExists := false }, true)

/-- Embedding of `full_import.import_file` as a state machine over
`ImportState`, with an optional injected exception at one of the
`FailPoint` stages.  The call sequence follows the source: status
`Starting`; rename input → staging; status `Title Detection` and title
detection; encode-argument construction; then either the title-mode branch
(status `Finish`, rename staging → informal name) or status `Transcoding`,
the transcode, status `Finish` and rename staging → `import_complete...`.
Any injected exception runs `import_fail`.  The second component of the
result is whether an exception propagated to the caller. -/
def import_file (titleMode : Bool) (failAt : Option FailPoint) (s0 : ImportState) :
    ImportState × Bool :=
  let s1 : ImportState := { s0 with status := some "Starting" }
  let s2 : ImportState := { s1 with origExists := false, stagingExists := true }
  if failAt = some .staging then import_fail s2 else
  let s3 : ImportState := { s2 with status := some "Title Detection" }
  if failAt = some .titleDetection then import_fail s3 else
  if failAt = some .encodeArgs then import_fail s3 else
  if titleMode then
    let s4 : ImportState := { s3 with status := some "Finish" }
    ({ s4 with stagingExists := false }, false)
  else
  let s4 : ImportState := { s3 with status := some "Transcoding" }
  if failAt = some .transcoding then import_fail s4 else
  let s5 : ImportState := { s4 with status := some "Finish" }
  ({ s5 with stagingExists := false }, false)

/-- Claim C1: whenever `import_file` re-raises an exception, the task
status is `Failed`, the staging path has been renamed back to the original
input path — so afterwards the original path exists and the staging path
does not — and the exception propagates; moreover an exception injected at
any reachable stage (every stage except transcoding in title-only mode,
which is skipped) does fire. -/
theorem import_file_failure_restores (titleMode : Bool) (failAt : Option FailPoint)
    (s0 : ImportState) :
    ((import_file titleMode failAt s0).2 = true →
      import_file titleMode failAt s0
        = ({ origExists := true, stagingExists := false, status := some "Failed" }, true))
    ∧ (∀ fp, failAt = some fp → (titleMode = false ∨ fp ≠ FailPoint.transcoding) →
      (import_file titleMode failAt s0).2 = true) := by
  constructor
  · intro h
    rcases failAt with _ | fp
    · cases titleMode <;> exact absurd h (by simp [import_file])
    · cases fp <;> cases titleMode <;>
        first
          | rfl
          | exact absurd h (by simp [import_file])
  · rintro fp rfl hv
    cases fp <;> cases titleMode <;>
      first
        | rfl
        | (rcases hv with h | h
           · exact absurd h (by decide)
           · exact absurd rfl h)

/-- Witness for C1: a transcoding failure in transcode mode leaves the
original path present, the staging path absent, the status `Failed`, and
the exception re-raised. -/
theorem import_file_failure_restores_witness :
    import_file false (some .transcoding) ⟨true, false, none⟩
      = ({ origExists := true, stagingExists := false, status := some "Failed" }, true) :=
  (import_file_failure_restores false (some .transcoding) ⟨true, false, none⟩).1 (by decide)

/-- Claim C2: acquiring the throttle of an unconfigured class is an ungated
no-op; the first acquisition of a class configured with integer limit `n`
gates the body and replaces exactly that entry by a semaphore of capacity
`n`; and any acquisition of a class already holding a semaphore gates the
body and leaves the map untouched (so the semaphore installed by the first
acquisition is reused, never re-initialised). -/
theorem throttle_lazy_semaphore (throttles : String → Option ThrottleEntry)
    (cls : String) :
    (throttles cls = none → Taskmaster.throttle throttles cls = (throttles, false))
    ∧ (∀ n, throttles cls = some (.limit n) →
        (Taskmaster.throttle throttles cls).2 = true
        ∧ (Taskmaster.throttle throttles cls).1 cls = some (.sem n)
        ∧ (∀ k, k ≠ cls → (Taskmaster.throttle throttles cls).1 k = throttles k)
        ∧ Taskmaster.throttle (Taskmaster.throttle throttles cls).1 cls
            = ((Taskmaster.throttle throttles cls).1, true))
    ∧ (∀ n, throttles cls = some (.sem n) →
        Taskmaster.throttle throttles cls = (throttles, true)) := by
  refine ⟨fun h => ?_, fun n h => ?_, fun n h => ?_⟩
  · simp [Taskmaster.throttle, h]
  · refine ⟨?_, ?_, fun k hk => ?_, ?_⟩
    · simp [Taskmaster.throttle, h]
    · simp [Taskmaster.throttle, h]
    · simp [Taskmaster.throttle, h, hk]
    · simp [Taskmaster.throttle, h]
  · simp [Taskmaster.throttle, h]

/-- A map holding one configured limit, used to instantiate
`throttle_lazy_semaphore`. -/
def throttles0 : String → Option ThrottleEntry :=
  fun k => if k = "ffmpeg" then some (.limit 2) else none

/-- Witness for C2 at a concrete map: the class `gcloud` is unthrottled,
while the first acquisition of `ffmpeg` installs a capacity-2 semaphore
that the second acquisition reuses unchanged. -/
theorem throttle_lazy_semaphore_witness :
    Taskmaster.throttle throttles0 "gcloud" = (throttles0, false)
    ∧ (Taskmaster.throttle throttles0 "ffmpeg").2 = true
    ∧ (Taskmaster.throttle throttles0 "ffmpeg").1 "ffmpeg" = some (.sem 2)
    ∧ Taskmaster.throttle (Taskmaster.throttle throttles0 "ffmpeg").1 "ffmpeg"
        = ((Taskmaster.throttle throttles0 "ffmpeg").1, true) := by
  have h1 := (throttle_lazy_semaphore throttles0 "gcloud").1 (by decide)
  have h2 := (throttle_lazy_semaphore throttles0 "ffmpeg").2.1 2 (by decide)
  exact ⟨h1, h2.1, h2.2.1, h2.2.2.2⟩

/-- Claim C6: once the ffmpeg cut and the upload have succeeded, the
`try/finally` around the annotation call guarantees that the remote
staging object is removed (`gsRm` is performed, right after the annotate
call) on both exit paths, and the annotation outcome — result or
exception — is passed through. -/
theorem detect_title_always_removes_blob (annRes : Except String (List String))
    (episodes : List (Int × Int × String)) :
    (_detect_title (.ok ()) (.ok ()) annRes episodes).1
        = [.ffmpegCopy, .gsUpload, .annotateCall, .gsRm]
    ∧ CallAction.gsRm ∈ (_detect_title (.ok ()) (.ok ()) annRes episodes).1
    ∧ (_detect_title (.ok ()) (.ok ()) annRes episodes).2
        = (match annRes with
           | .ok text => .ok (select_episode episodes text)
           | .error e => .error e) := by
  cases annRes <;>
    exact ⟨rfl, .tail _ (.tail _ (.tail _ (.head _))), rfl⟩

/-- Claim C7 (refuted): `EPList.__and__` can never return, because it
evaluates `EPList("")` first and the constructor raises
`No season defined on selector` on the empty selector (Python's
`""\x2esplit(",")` is `[""]`, and the empty item has no season).  Stated
for every pair of episode lists and evaluated at a concrete pair whose
intersection the claim says should be returned. -/
theorem eplist_and_always_raises :
    (∀ a b : List (Int × Option Int),
      EPList.and a b = .error "No season defined on selector")
    ∧ EPList.and [(1, some 2), (2, none)] [(1, some 2)]
        = .error "No season defined on selector" :=
  ⟨fun _ _ => rfl, rfl⟩

/-- Claim C8: compiling the selector `"1:2,1:5,2:*"` yields the pairs
`[(1,2),(1,5),(2,*)]`, and membership then accepts season 1 episode 5,
accepts season 2 episode 999 through the wildcard, and rejects season 3
episode 1. -/
theorem eplist_round_trip :
    EPList.init (some "1:2,1:5,2:*") = .ok [(1, some 2), (1, some 5), (2, none)]
    ∧ EPList.containsEp [(1, some 2), (1, some 5), (2, none)]
        ⟨"S", 1, 5, "t", "p", "f", "mkv"⟩ = true
    ∧ EPList.containsEp [(1, some 2), (1, some 5), (2, none)]
        ⟨"S", 2, 999, "t", "p", "f", "mkv"⟩ = true
    ∧ EPList.containsEp [(1, some 2), (1, some 5), (2, none)]
        ⟨"S", 3, 1, "t", "p", "f", "mkv"⟩ = false :=
  ⟨rfl, by decide, by decide, by decide⟩

/-- Claim C9: the canonical path depends only on the show, season, episode,
title and extension fields (two records agreeing there map to the same
string), and on `show="Foo", season=1, episode=1, title="Pilot", ext="mp4"`
it is exactly `Foo/Season 1/Foo - S1E1 - Pilot.mp4`. -/
theorem canonical_filepath_pure (e1 e2 : EpInfo) :
    (e1.showName = e2.showName → e1.season = e2.season → e1.episode = e2.episode →
      e1.title = e2.title → e1.ext = e2.ext →
      canonical_filepath e1 = canonical_filepath e2)
    ∧ canonical_filepath ⟨"Foo", 1, 1, "Pilot", "in.mkv", "in.mkv", "mp4"⟩
        = "Foo/Season 1/Foo - S1E1 - Pilot.mp4" := by
  constructor
  · intro h1 h2 h3 h4 h5
    simp [canonical_filepath, canonical_filename, h1, h2, h3, h4, h5]
  · decide

/-- Witness for C9: two records equal on the five relevant fields but with
different source paths produce the same canonical path. -/
theorem canonical_filepath_pure_witness :
    canonical_filepath ⟨"Foo", 1, 1, "Pilot", "a.mkv", "a.mkv", "mp4"⟩
      = canonical_filepath ⟨"Foo", 1, 1, "Pilot", "b.mkv", "b.mkv", "mp4"⟩ :=
  (canonical_filepath_pure ⟨"Foo", 1, 1, "Pilot", "a.mkv", "a.mkv", "mp4"⟩
    ⟨"Foo", 1, 1, "Pilot", "b.mkv", "b.mkv", "mp4"⟩).1 rfl rfl rfl rfl rfl

/-- Claim C10: `canonicalize` with the move flag set always raises
`NameError` (the module imports only the bare name `move` from `shutil`,
so `shutil` is unbound), while with the flag unset it returns the record
updated to the canonical path and filename without touching the
filesystem. -/
theorem canonicalize_move_is_unbound (e : EpInfo) (dest : String) :
    canonicalize e dest true = .error "NameError: name shutil is not defined"
    ∧ canonicalize e dest false
        = .ok (update_epinfo e (pathJoin dest (canonical_filepath e))
            (canonical_filename e)) :=
  ⟨rfl, rfl⟩

lemma detect_go_all_none (oracle : Nat → Nat → Option (Int × Int × String)) :
    ∀ l : List Nat, (∀ o ∈ l, oracle (60 * o) 120 = none) →
      detect_title_go oracle l = (none, l.map (fun o => (60 * o, 120))) := by
  intro l
  induction l with
  | nil => intro _; rfl
  | cons o rest ih =>
    intro h
    have ho := h o (by simp)
    have hr := ih (fun x hx => h x (by simp [hx]))
    simp [detect_title_go, ho, hr]

lemma detect_go_first_hit (oracle : Nat → Nat → Option (Int × Int × String)) :
    ∀ (pre : List Nat) (o : Nat) (post : List Nat) (r : Int × Int × String),
      (∀ p ∈ pre, oracle (60 * p) 120 = none) → oracle (60 * o) 120 = some r →
      detect_title_go oracle (pre ++ o :: post)
        = (some r, (pre ++ [o]).map (fun x => (60 * x, 120))) := by
  intro pre
  induction pre with
  | nil => intro o post r _ ho; simp [detect_title_go, ho]
  | cons p pre ih =>
    intro o post r hpre ho
    have hp := hpre p (by simp)
    have hr := ih o post r (fun x hx => hpre x (by simp [hx])) ho
    simp [detect_title_go, hp, hr]

lemma detect_go_none_iff (oracle : Nat → Nat → Option (Int × Int × String)) :
    ∀ l : List Nat,
      (detect_title_go oracle l).1 = none ↔ ∀ o ∈ l, oracle (60 * o) 120 = none := by
  intro l
  induction l with
  | nil => simp [detect_title_go]
  | cons o rest ih =>
    rcases h : oracle (60 * o) 120 with _ | r
    · simpa [detect_title_go, h] using ih
    · simp [detect_title_go, h]

/-- Claim C5: `detect_title` tries the offsets in the fixed order
`[4, 2, 6, 0, 8]` minutes, each as a 120-second clip starting at
`60 * offset` seconds; when every offset fails it returns the
manual-prompt answer after asking for `SEASON`, `EPISODE`, `TITLE`; when
some offset succeeds it returns the first success after exactly the
attempts up to it; and the prompt is invoked iff all five offsets fail. -/
theorem detect_title_offset_order (oracle : Nat → Nat → Option (Int × Int × String))
    (pr : Int × Int × String) :
    detect_offsets = [4, 2, 6, 0, 8]
    ∧ ((∀ o ∈ detect_offsets, oracle (60 * o) 120 = none) →
        detect_title oracle pr
          = (pr, detect_offsets.map (fun o => (60 * o, 120)),
            some ["SEASON", "EPISODE", "TITLE"]))
    ∧ (∀ (pre : List Nat) (o : Nat) (post : List Nat) (r : Int × Int × String),
        detect_offsets = pre ++ o :: post →
        (∀ p ∈ pre, oracle (60 * p) 120 = none) → oracle (60 * o) 120 = some r →
        detect_title oracle pr = (r, (pre ++ [o]).map (fun x => (60 * x, 120)), none))
    ∧ ((detect_title oracle pr).2.2 = some ["SEASON", "EPISODE", "TITLE"]
        ↔ ∀ o ∈ detect_offsets, oracle (60 * o) 120 = none) := by
  refine ⟨rfl, fun h => ?_, fun pre o post r heq hpre ho => ?_, ?_⟩
  · simp [detect_title, detect_go_all_none oracle _ h]
  · rw [detect_title, heq, detect_go_first_hit oracle pre o post r hpre ho]
  · rw [← detect_go_none_iff oracle detect_offsets]
    rcases hgo : detect_title_go oracle detect_offsets with ⟨_ | r, tr⟩
    · simp [detect_title, hgo]
    · simp [detect_title, hgo]

/-- An oracle whose first offset fails and whose second (minute 2, i.e.
second 120) succeeds, used to instantiate `detect_title_offset_order`. -/
def oracle0 : Nat → Nat → Option (Int × Int × String) :=
  fun s _ => if s = 120 then some (1, 2, "x") else none

/-- Witness for C5: with `oracle0` the loop attempts minutes 4 then 2 and
returns the minute-2 hit without prompting; with the never-matching oracle
all five attempts are made and the prompt is invoked. -/
theorem detect_title_offset_order_witness :
    detect_title oracle0 (9, 9, "p") = ((1, 2, "x"), [(240, 120), (120, 120)], none)
    ∧ detect_title (fun _ _ => none) (9, 9, "p")
        = ((9, 9, "p"), [(240, 120), (120, 120), (360, 120), (0, 120), (480, 120)],
          some ["SEASON", "EPISODE", "TITLE"]) :=
  ⟨(detect_title_offset_order oracle0 (9, 9, "p")).2.2.1 [4] 2 [6, 0, 8] (1, 2, "x")
      rfl (by decide) (by decide),
    (detect_title_offset_order (fun _ _ => none) (9, 9, "p")).2.1 (by decide)⟩

lemma getLast?_of_all_eq {α : Type} (a : α) :
    ∀ l : List α, l ≠ [] → (∀ x ∈ l, x = a) → l.getLast? = some a := by
  intro l
  induction l with
  | nil => intro h; exact absurd rfl h
  | cons x xs ih =>
    intro _ h
    cases xs with
    | nil => simp [h x (by simp)]
    | cons y ys =>
      rw [List.getLast?_cons_cons]
      exact ih (by simp) (fun z hz => h z (by simp [hz]))

lemma eq_singleton_of_nodup {α : Type} (l : List α) (a : α) (hnd : l.Nodup)
    (ha : a ∈ l) (hall : ∀ x ∈ l, x = a) : l = [a] := by
  cases l with
  | nil => cases ha
  | cons x xs =>
    have hx : x = a := hall x (by simp)
    cases xs with
    | nil => simp [hx]
    | cons y ys =>
      exfalso
      have hy : y = a := hall y (by simp)
      apply (List.nodup_cons.mp hnd).1
      simp [hx, hy]

lemma mem_common_titles (allowed : List (Int × Int × String)) (detected : List String)
    (x : String) :
    x ∈ common_titles allowed detected ↔
      (∃ p ∈ allowed, normTitle p.2.2 = x) ∧ x ∈ detected.map normTitle := by
  simp [common_titles, List.mem_dedup, List.mem_filter]

/-- Claim C3: when exactly one allowed episode has its normalised
(lower-cased, stripped) title among the normalised detected strings,
`select_episode` returns that episode; and whenever the normalised-title
intersection does not have size one (zero, or two and more), it returns
`(None, None, None)`. -/
theorem select_episode_unique_match (allowed : List (Int × Int × String))
    (detected : List String) :
    (∀ a, a ∈ allowed → normTitle a.2.2 ∈ detected.map normTitle →
      (∀ b ∈ allowed, normTitle b.2.2 ∈ detected.map normTitle → b = a) →
      select_episode allowed detected = some a)
    ∧ ((common_titles allowed detected).length ≠ 1 →
        select_episode allowed detected = none) := by
  constructor
  · intro a ha hdet huniq
    have hmem : normTitle a.2.2 ∈ common_titles allowed detected :=
      (mem_common_titles allowed detected _).mpr ⟨⟨a, ha, rfl⟩, hdet⟩
    have hall : ∀ x ∈ common_titles allowed detected, x = normTitle a.2.2 := by
      intro x hx
      obtain ⟨⟨b, hb, hbx⟩, hxdet⟩ := (mem_common_titles allowed detected x).mp hx
      rw [← hbx, huniq b hb (by rwa [hbx])]
    have hnd : (common_titles allowed detected).Nodup := by
      unfold common_titles; exact List.nodup_dedup _
    have hsing : common_titles allowed detected = [normTitle a.2.2] :=
      eq_singleton_of_nodup _ _ hnd hmem hall
    have hstep : select_episode allowed detected
        = (allowed.filter
            (fun p => decide (normTitle p.2.2 = normTitle a.2.2))).getLast? := by
      rw [select_episode, hsing]
    rw [hstep]
    apply getLast?_of_all_eq
    · exact List.ne_nil_of_mem
        (List.mem_filter.mpr ⟨ha, decide_eq_true rfl⟩)
    · intro b hb
      obtain ⟨hb1, hb2⟩ := List.mem_filter.mp hb
      exact huniq b hb1 (by rw [of_decide_eq_true hb2]; exact hdet)
  · intro hlen
    rcases h : common_titles allowed detected with _ | ⟨t, _ | ⟨t2, r⟩⟩
    · rw [select_episode, h]
    · exact absurd (by rw [h]; rfl) hlen
    · rw [select_episode, h]

/-- Witness for C3: `{(1,2,"Pilot")}` against detected `{"pilot "}`
matches uniquely after folding and trimming; the ambiguous pair from the
spec's own test, `{(1,2,"Pilot"), (1,3,"PILOT2")}` against
`{"pilot", "pilot2"}`, yields no match. -/
theorem select_episode_unique_match_witness :
    select_episode [(1, 2, "Pilot")] ["pilot "] = some (1, 2, "Pilot")
    ∧ select_episode [(1, 2, "Pilot"), (1, 3, "PILOT2")] ["pilot", "pilot2"] = none :=
  ⟨(select_episode_unique_match [(1, 2, "Pilot")] ["pilot "]).1 (1, 2, "Pilot")
      (by decide) (by decide) (by decide),
    (select_episode_unique_match [(1, 2, "Pilot"), (1, 3, "PILOT2")]
      ["pilot", "pilot2"]).2 (by decide)⟩

/-- Counterexample to C4: a completed annotation result set whose single
text passes the threshold, yet `gcloud_annotate` returns `None` rather
than the list of surviving strings, because `operation.done()` is already
true at the first check of the `while` loop, whose body then never runs
and the function falls off its end. -/
theorem gcloud_annotate_done_returns_none :
    confFilter [("Pilot", [1])] 0 = ["Pilot"]
    ∧ gcloud_annotate 0 [("Pilot", [1])] [.exitDone] = none
    ∧ gcloud_annotate 0 [("Pilot", [1])] [.exitDone] ≠ some ["Pilot"] :=
  ⟨by decide, rfl, by decide⟩

lemma gcloud_annotate_of_success (t : ℚ) (anns : List (String × List ℚ)) :
    ∀ (pre rest : List LoopEvent), (∀ e ∈ pre, e = LoopEvent.pollTimeout) →
      gcloud_annotate t anns (pre ++ .pollSuccess :: rest) = some (confFilter anns t) := by
  intro pre
  induction pre with
  | nil => intro rest _; rfl
  | cons e es ih =>
    intro rest h
    have he : e = LoopEvent.pollTimeout := h e (by simp)
    subst he
    simpa [gcloud_annotate] using ih rest (fun x hx => h x (by simp [hx]))

/-- Claim C4 as amended: whatever the threshold, the annotation set and the
loop trace, `gcloud_annotate` returns either `None` or exactly the list of
texts whose median per-segment confidence is `≥ t`; it does return that
list whenever `operation.result` yields the completed result before any
`done()` check succeeds; and a text survives the filter iff its median
segment confidence meets the threshold (median equal to `t` included). -/
theorem gcloud_annotate_median_filter (t : ℚ) (anns : List (String × List ℚ))
    (events : List LoopEvent) :
    (gcloud_annotate t anns events = none
      ∨ gcloud_annotate t anns events = some (confFilter anns t))
    ∧ (∀ pre rest, events = pre ++ LoopEvent.pollSuccess :: rest →
        (∀ e ∈ pre, e = LoopEvent.pollTimeout) →
        gcloud_annotate t anns events = some (confFilter anns t))
    ∧ (∀ s, s ∈ confFilter anns t ↔ ∃ segs, (s, segs) ∈ anns ∧ t ≤ npMedian segs) := by
  refine ⟨?_, ?_, ?_⟩
  · induction events with
    | nil => exact Or.inl rfl
    | cons e rest ih =>
      cases e with
      | exitDone => exact Or.inl rfl
      | pollSuccess => exact Or.inr rfl
      | pollTimeout => exact ih
  · intro pre rest heq hall
    rw [heq]
    exact gcloud_annotate_of_success t anns pre rest hall
  · intro s
    unfold confFilter
    constructor
    · intro hs
      obtain ⟨a, ha, hfst⟩ := List.mem_map.mp hs
      obtain ⟨hmem, hdec⟩ := List.mem_filter.mp ha
      refine ⟨a.2, ?_, of_decide_eq_true hdec⟩
      rw [← hfst, Prod.mk.eta]
      exact hmem
    · rintro ⟨segs, hmem, hle⟩
      exact List.mem_map.mpr
        ⟨(s, segs), List.mem_filter.mpr ⟨hmem, decide_eq_true hle⟩, rfl⟩

/-- Witness for C4's amended statement: with threshold 1, the loop trace
with one timed-out poll followed by a delivered result returns exactly the
surviving texts, here `["A"]` (median 1 passes, median 0 does not). -/
theorem gcloud_annotate_median_filter_witness :
    gcloud_annotate 1 [("A", [1]), ("B", [0])] [.pollTimeout, .pollSuccess]
      = some (confFilter [("A", [1]), ("B", [0])] 1)
    ∧ confFilter [("A", [(1 : ℚ)]), ("B", [0])] 1 = ["A"] :=
  ⟨(gcloud_annotate_median_filter 1 [("A", [1]), ("B", [0])]
      [.pollTimeout, .pollSuccess]).2.1 [.pollTimeout] [] rfl (by decide),
    by decide⟩

end MediaScripts
